import Mathlib

/-! Shallow embedding of the input layer of capra_web_ui: the InputSystem
class (per-frame gamepad polling, keyboard event dispatch, start/stop
control) and the mapGamepadToJoy helper.  JavaScript numbers are modelled
as rationals (written with `mkRat`, so `mkRat 1 10` is the literal `0.1`
and `mkRat 9 100` the literal `0.09`), JavaScript `undefined` array reads
as `Option`, and the one runtime fault this code can raise (a TypeError
from dereferencing or destructuring `undefined`) as an explicit error
value. -/

namespace Capra

/-- A JavaScript runtime error surfaced by this component.  The only one
reachable here is a TypeError, from reading a property of `undefined` or
destructuring `undefined`. -/
inductive JsErr where
  | typeError
deriving DecidableEq

/-- Character-list version of "the second list starts with the first". -/
def listStartsWith : List Char → List Char → Bool
  | [], _ => true
  | _ :: _, [] => false
  | p :: ps, c :: cs => p == c && listStartsWith ps cs

/-- Character-list version of substring containment. -/
def listContainsSub (pat : List Char) : List Char → Bool
  | [] => listStartsWith pat []
  | c :: cs => listStartsWith pat (c :: cs) || listContainsSub pat cs

/-- JavaScript `s.includes(pat)`: does `s` contain `pat` as a substring. -/
def strIncludes (s pat : String) : Bool :=
  listContainsSub pat.data s.data

/-- A raw button sample from the Gamepad API: either a plain number or a
`\x7bpressed, value\x7d` object (source: the two branches of `isPressed`). -/
inductive GamepadButton where
  | num (value : ℚ)
  | obj (pressed : Bool) (value : ℚ)
deriving DecidableEq

/-- A gamepad sample as exposed by `navigator.getGamepads()`. -/
structure Gamepad where
  id : String
  axes : List ℚ
  buttons : List GamepadButton
  timestamp : ℚ
deriving DecidableEq

/-- Source `isPressed`: a numeric sample is pressed when above 0.1, an
object sample when its `pressed` flag is set. -/
def isPressed (rawBtn : GamepadButton) : Bool :=
  match rawBtn with
  | .num v => decide (mkRat 1 10 < v)
  | .obj pressed _ => pressed

/-- Source `isInvalidGamepad`: id contains "Unknown Gamepad", or the
device reports zero axes and zero buttons. -/
def isInvalidGamepad (gamepad : Gamepad) : Bool :=
  strIncludes gamepad.id "Unknown Gamepad" ||
    (gamepad.axes.length == 0 && gamepad.buttons.length == 0)

/-- Source `GamepadState`: current sample, previous sample (absent on the
first frame a slot is seen), and the slot index. -/
structure GamepadState where
  gamepad : Gamepad
  prevGamepad : Option Gamepad
  index : Nat
deriving DecidableEq

/-- The tagged Context union delivered to `perform`.  `noneCtx` is the
source's `\x7btype: 'none'\x7d` placeholder; `gamepadAxis` carries the raw read
`gamepad.axes[b.axis]` (an `Option` since the index may be out of range);
`spacemouse` carries the spread-copied axis and button arrays. -/
inductive Context where
  | keyboard
  | noneCtx
  | gamepad (id : String) (gamepadState : GamepadState)
  | gamepadAxis (id : String) (gamepadState : GamepadState) (value : Option ℚ)
  | gamepadBtn (id : String) (gamepadState : GamepadState)
  | spacemouse (id : String) (gamepadState : GamepadState)
      (axes : List ℚ) (buttons : List GamepadButton)
deriving DecidableEq

/-- Source `keyboardCtx`. -/
def keyboardCtx : Context := Context.keyboard

/-- Source `emptyCtx`. -/
def emptyCtx : Context := Context.noneCtx

/-- The Binding tagged union.  The `malformed` constructor models a runtime
binding value whose tag matches no known variant: the TypeScript type
excludes it statically, but claim C8 quantifies over it, and the frame
switch has no case (and no default) for it. -/
inductive Binding where
  | keyboard (code : String) (onKeyDown : Bool)
  | gamepad
  | gamepadAxis (axis : Nat)
  | gamepadBtn (button : Nat)
  | spacemouse
  | malformed
deriving DecidableEq

/-- An action: a name and its bindings.  The `perform` callback is modelled
by recording dispatched `(name, context)` pairs instead of running it. -/
structure Action where
  name : String
  bindings : List Binding
deriving DecidableEq

/-- The per-binding check closure built inside `updateGamepad` for one
slot: `g` is the current sample, `prev` is `this.lastGamepad[i]`, `i` the
slot index.  Returns `.ok (some (canPerform, ctx))` for a normal
`[bool, ctx]` return, `.ok none` when the switch falls through (JavaScript
returns `undefined`), and `.error .typeError` when the body itself throws —
which happens in the `gamepadAxis` case when `prev` is absent, because the
source reads `this.lastGamepad[i].axes[b.axis]` without optional
chaining. -/
def frameCheckBinding (g : Gamepad) (prev : Option Gamepad) (i : Nat) :
    Binding → Except JsErr (Option (Bool × Context))
  | .gamepad =>
      if strIncludes g.id "SpaceMouse" then .ok (some (false, emptyCtx))
      else .ok (some (true, Context.gamepad g.id ⟨g, prev, i⟩))
  | .keyboard _ _ => .ok (some (false, emptyCtx))
  | .gamepadAxis a =>
      match prev with
      | none => .error JsErr.typeError
      | some pg =>
          if g.axes.get? a ≠ pg.axes.get? a then
            .ok (some (true, Context.gamepadAxis g.id ⟨g, prev, i⟩ (g.axes.get? a)))
          else .ok (some (false, emptyCtx))
  | .gamepadBtn k =>
      let btn := g.buttons.get? k
      let lastBtn := prev.bind (fun pg => pg.buttons.get? k)
      let currentlyPressed := match btn with | some b => isPressed b | none => false
      let pressedLastUpdate := match lastBtn with | some b => isPressed b | none => false
      if currentlyPressed && !pressedLastUpdate then
        .ok (some (true, Context.gamepadBtn g.id ⟨g, prev, i⟩))
      else .ok (some (false, emptyCtx))
  | .spacemouse =>
      if strIncludes g.id "SpaceMouse" then
        .ok (some (true, Context.spacemouse g.id ⟨g, prev, i⟩ g.axes g.buttons))
      else .ok (some (false, emptyCtx))
  | .malformed => .ok none

/-- Whether a check result is a dispatch (a normal return of `[true, ctx]`). -/
def firesOf (r : Except JsErr (Option (Bool × Context))) : Bool :=
  match r with
  | .ok (some (true, _)) => true
  | _ => false

/-- The inner loop of `checkActionsBindings` over one action's bindings:
each binding's check result is destructured as `[canPerform, context]`;
a `perform` call is recorded as a `(name, context)` pair.  Destructuring
`undefined` (`.ok none`) throws a TypeError in the caller; a thrown error
aborts the rest of the list.  Returns the dispatches performed before any
abort, and the error if one was thrown. -/
def checkBindingsList (check : Binding → Except JsErr (Option (Bool × Context)))
    (name : String) : List Binding → List (String × Context) × Option JsErr
  | [] => ([], none)
  | b :: rest =>
      match check b with
      | .error e => ([], some e)
      | .ok none => ([], some JsErr.typeError)
      | .ok (some (true, ctx)) =>
          let r := checkBindingsList check name rest
          ((name, ctx) :: r.1, r.2)
      | .ok (some (false, _)) => checkBindingsList check name rest

/-- Source `checkActionsBindings`: iterate every binding of every action,
performing the action for each binding whose check returns `[true, ctx]`.
An error thrown mid-way aborts the remaining actions. -/
def checkActionsBindings (check : Binding → Except JsErr (Option (Bool × Context))) :
    List Action → List (String × Context) × Option JsErr
  | [] => ([], none)
  | a :: rest =>
      let r := checkBindingsList check a.name a.bindings
      match r.2 with
      | some e => (r.1, some e)
      | none =>
          let r2 := checkActionsBindings check rest
          (r.1 ++ r2.1, r2.2)

/-- The check closure of the source `onKeyDown` handler: non-keyboard
bindings fail closed; a keyboard binding matches when its `onKeyDown` flag
is set and its code equals the event's code. -/
def keyDownCheckBinding (code : String) (b : Binding) :
    Except JsErr (Option (Bool × Context)) :=
  match b with
  | .keyboard bcode bOnKeyDown =>
      if bOnKeyDown && bcode == code then .ok (some (true, keyboardCtx))
      else .ok (some (false, emptyCtx))
  | _ => .ok (some (false, emptyCtx))

/-- The check closure of the source `onKeyUp` handler: matches keyboard
bindings with the `onKeyDown` flag unset and an equal code. -/
def keyUpCheckBinding (code : String) (b : Binding) :
    Except JsErr (Option (Bool × Context)) :=
  match b with
  | .keyboard bcode bOnKeyDown =>
      if !bOnKeyDown && bcode == code then .ok (some (true, keyboardCtx))
      else .ok (some (false, emptyCtx))
  | _ => .ok (some (false, emptyCtx))

/-- Source `onKeyDown` handler applied to a key event with the given code. -/
def onKeyDown (actions : List Action) (code : String) :
    List (String × Context) × Option JsErr :=
  checkActionsBindings (keyDownCheckBinding code) actions

/-- Source `onKeyUp` handler applied to a key event with the given code. -/
def onKeyUp (actions : List Action) (code : String) :
    List (String × Context) × Option JsErr :=
  checkActionsBindings (keyUpCheckBinding code) actions

/-- The mutable per-device history of the InputSystem instance: the sparse
arrays `lastGamepad` and `lastTimestamp`, modelled as functions from slot
index to the stored value (absent entries are `none`). -/
structure Hist where
  lastGamepad : Nat → Option Gamepad
  lastTimestamp : Nat → Option ℚ

/-- The empty history a fresh InputSystem starts with. -/
def hist0 : Hist := ⟨fun _ => none, fun _ => none⟩

/-- The outcome of one `updateGamepad` frame pass: updated history, the
`(name, context)` dispatches performed, the slot indices that passed the
empty/invalid guard and reached binding evaluation, and the error if the
pass threw. -/
structure FrameResult where
  hist : Hist
  dispatches : List (String × Context)
  processed : List Nat
  err : Option JsErr

/-- The body of the source slot loop `for (let i = 0; i <= gamepads.length;
i++)`, folded over the index list.  A slot that is empty (`undefined` or
`null`) or invalid is skipped; otherwise every action's bindings are
checked against the slot's current and stored previous sample, and on a
normal completion the slot's history is overwritten with the current
sample and timestamp.  A thrown error propagates: the slot's history is
not written and the remaining indices are not visited. -/
def updateGamepadLoop (actions : List Action) (gamepads : List (Option Gamepad)) :
    List Nat → FrameResult → FrameResult
  | [], acc => acc
  | i :: rest, acc =>
      if acc.err.isSome then acc
      else
        match (gamepads.get? i).join with
        | none => updateGamepadLoop actions gamepads rest acc
        | some g =>
            if isInvalidGamepad g then updateGamepadLoop actions gamepads rest acc
            else
              let prev := acc.hist.lastGamepad i
              let r := checkActionsBindings (frameCheckBinding g prev i) actions
              match r.2 with
              | some e =>
                  { acc with
                    dispatches := acc.dispatches ++ r.1,
                    processed := acc.processed ++ [i],
                    err := some e }
              | none =>
                  updateGamepadLoop actions gamepads rest
                    { hist :=
                        { lastGamepad := fun j => if j = i then some g else acc.hist.lastGamepad j,
                          lastTimestamp := fun j => if j = i then some g.timestamp else acc.hist.lastTimestamp j },
                      dispatches := acc.dispatches ++ r.1,
                      processed := acc.processed ++ [i],
                      err := none }

/-- Source `updateGamepad`: one frame pass over the sampled slot list.
Note the source loop bound is `i <= gamepads.length`, one past the end. -/
def updateGamepad (actions : List Action) (hist : Hist)
    (gamepads : List (Option Gamepad)) : FrameResult :=
  updateGamepadLoop actions gamepads (List.range (gamepads.length + 1))
    { hist := hist, dispatches := [], processed := [], err := none }

/-- Run a sequence of frames through `updateGamepad`, threading the
history.  A frame that throws kills the polling loop (the source calls
`requestAnimationFrame` only after `updateGamepad` returns), so no later
frame runs.  Returns, per executed frame, its dispatches and error. -/
def runFrames (actions : List Action) :
    Hist → List (List (Option Gamepad)) → List (List (String × Context) × Option JsErr)
  | _, [] => []
  | h, f :: rest =>
      let r := updateGamepad actions h f
      match r.err with
      | some e => [(r.dispatches, some e)]
      | none => (r.dispatches, none) :: runFrames actions r.hist rest

/-- The polling-control state of the InputSystem instance: the `isRunning`
and `isBrowserSupported` flags, plus a count of `requestAnimationFrame`
registrations made, used to observe scheduling. -/
structure PollState where
  isRunning : Bool
  isBrowserSupported : Bool
  rafRegistrations : Nat
deriving DecidableEq

/-- Source `update` (scheduling effects only): when running, sample the
gamepads and register one `requestAnimationFrame` callback. -/
def update (s : PollState) : PollState :=
  if s.isRunning then { s with rafRegistrations := s.rafRegistrations + 1 } else s

/-- Source `start`: when the browser is supported and the system is not
already running, flip `isRunning` and call `update`. -/
def start (s : PollState) : PollState :=
  if s.isBrowserSupported && !s.isRunning then update { s with isRunning := true }
  else s

/-- Source `stop`: clear the `isRunning` flag. -/
def stop (s : PollState) : PollState := { s with isRunning := false }

/-- A heap of array objects, used to distinguish copied from aliased
arrays when modelling the spacemouse context snapshot (the source builds
the context with `axes: [...gamepad.axes]`, `buttons:
[...gamepad.buttons]`).  `axSize`/`btnSize` are the allocation frontiers:
references below them are live. -/
structure SMHeap where
  axSize : Nat
  axMem : Nat → List ℚ
  btnSize : Nat
  btnMem : Nat → List GamepadButton

/-- A gamepad whose axis and button arrays live in the heap, referenced by
address rather than held by value. -/
structure RefGamepad where
  id : String
  axesRef : Nat
  buttonsRef : Nat

/-- A spacemouse context whose axis and button arrays are heap references
(to the arrays freshly allocated by the spread copies). -/
structure RefSpaceMouseCtx where
  id : String
  axesRef : Nat
  buttonsRef : Nat

/-- The spacemouse dispatch of `updateGamepad`, lines 169-181, at the
heap level: the context's `axes` and `buttons` are fresh arrays allocated
by the spread operator, holding copies of the device arrays' current
contents. -/
def mkSpaceMouseCtxRef (h : SMHeap) (g : RefGamepad) : SMHeap × RefSpaceMouseCtx :=
  ({ axSize := h.axSize + 1,
     axMem := fun r => if r = h.axSize then h.axMem g.axesRef else h.axMem r,
     btnSize := h.btnSize + 1,
     btnMem := fun r => if r = h.btnSize then h.btnMem g.buttonsRef else h.btnMem r },
   { id := g.id, axesRef := h.axSize, buttonsRef := h.btnSize })

/-- Overwrite the axis array at reference `r` with new contents. -/
def writeAxes (h : SMHeap) (r : Nat) (v : List ℚ) : SMHeap :=
  { h with axMem := fun q => if q = r then v else h.axMem q }

/-- Overwrite the button array at reference `r` with new contents. -/
def writeButtons (h : SMHeap) (r : Nat) (v : List GamepadButton) : SMHeap :=
  { h with btnMem := fun q => if q = r then v else h.btnMem q }

/-- The joy message header produced by `mapGamepadToJoy`. -/
structure JoyHeader where
  seq : ℤ
  stampSec : ℤ
  stampNsecs : ℤ
  frameId : String
deriving DecidableEq

/-- The joy message produced by `mapGamepadToJoy`. -/
structure JoyMsg where
  header : JoyHeader
  axes : List ℚ
  buttons : List ℤ
deriving DecidableEq

/-- JavaScript truncation toward zero of a number. -/
def jsTrunc (q : ℚ) : ℤ := if 0 ≤ q then ⌊q⌋ else ⌈q⌉

/-- JavaScript `~~x`: ToInt32 — truncate toward zero, wrap into the
signed 32-bit range. -/
def jsToInt32 (x : Option ℚ) : ℤ :=
  match x with
  | none => 0
  | some q => (jsTrunc q + 2 ^ 31) % 2 ^ 32 - 2 ^ 31

/-- JavaScript `x.value` on a button sample: `undefined` on a plain
number, the `value` field on an object sample. -/
def jsValueField (b : GamepadButton) : Option ℚ :=
  match b with
  | .num _ => none
  | .obj _ v => some v

/-- Source `mapGamepadToJoy` (GamepadUtils.ts).  The global `joySeqId`
counter and the wall-clock seconds are side inputs, passed explicitly.
Axes below 0.09 are zeroed; buttons are `~~`-converted to int32. -/
def mapGamepadToJoy (seq : ℤ) (seconds : ℤ) (gamepad : Gamepad) : JoyMsg :=
  { header := { seq := seq, stampSec := seconds, stampNsecs := 0, frameId := "" },
    axes := gamepad.axes.map (fun x => if x < mkRat 9 100 then 0 else x),
    buttons := gamepad.buttons.map (fun x => jsToInt32 (jsValueField x)) }

/-- Boolean validity of a sampled slot: holds a device that is neither
absent nor invalid.  Used to state claim C9. -/
def validSlotB (gamepads : List (Option Gamepad)) (i : Nat) : Bool :=
  match (gamepads.get? i).join with
  | some g => !isInvalidGamepad g
  | none => false

/-- Does the current sample report button `k` pressed: the button exists
at index `k` and `isPressed` holds of it; an absent index counts as not
pressed.  This is the code's `currentlyPressed` subexpression and the
claims' reading of "the sample reports the button pressed". -/
def reportsPressed (g : Gamepad) (k : Nat) : Bool :=
  match g.buttons.get? k with
  | some b => isPressed b
  | none => false

/-- Did the stored previous sample report button `k` pressed; an absent
history slot counts as not pressed (the code's `pressedLastUpdate`). -/
def histPressed (prev : Option Gamepad) (k : Nat) : Bool :=
  match prev with
  | some pg => reportsPressed pg k
  | none => false

/-- The keyboard-routing predicate asserted by the spec: a binding matches
a key event with the given code on the given edge (`down = true` for
key-down) exactly when it is a keyboard binding whose `onKeyDown` flag
equals the edge and whose code equals the event's code. -/
def kbMatches (b : Binding) (code : String) (down : Bool) : Bool :=
  match b with
  | .keyboard c k => (if down then k else !k) && c == code
  | _ => false

/-- The dispatch list the spec asserts for a key event: for each action in
order, one `(name, keyboardCtx)` pair per matching keyboard binding. -/
def kbDispatches (actions : List Action) (code : String) (down : Bool) :
    List (String × Context) :=
  (actions.map (fun a =>
    (a.bindings.filter (fun b => kbMatches b code down)).map
      (fun _ => (a.name, keyboardCtx)))).flatten

/-- Concrete gamepad for the C1 scenario: one object-style button. -/
def c1Gp (p : Bool) : Gamepad :=
  ⟨"Xbox Wireless Controller", [], [GamepadButton.obj p 1], 0⟩

/-- Concrete action map for the C1 scenario. -/
def c1Actions : List Action := [⟨"fire", [Binding.gamepadBtn 0]⟩]

/-- The C1 three-frame sequence: button 0 unpressed, pressed, pressed. -/
def c1Frames : List (List (Option Gamepad)) :=
  [[some (c1Gp false)], [some (c1Gp true)], [some (c1Gp true)]]

/-- Concrete gamepad for the C2 failing input: one axis, value 0.2. -/
def c2Gp : Gamepad := ⟨"Xbox Wireless Controller", [mkRat 1 5], [], 0⟩

/-- Concrete action map for the C2 failing input: one gamepadAxis binding. -/
def c2Actions : List Action := [⟨"axis", [Binding.gamepadAxis 0]⟩]

/-- Concrete gamepad with button 0 pressed, for the C2 button contrast. -/
def c2GpBtn : Gamepad :=
  ⟨"Xbox Wireless Controller", [], [GamepadButton.obj true 1], 0⟩

/-- Concrete action map with one gamepadBtn binding, for the C2 contrast. -/
def c2BtnActions : List Action := [⟨"btn", [Binding.gamepadBtn 0]⟩]

/-- Concrete gamepad for the C3 scenario, with the given value on axis 0. -/
def c3Gp (v : ℚ) : Gamepad := ⟨"Xbox Wireless Controller", [v], [], 0⟩

/-- Stored history for the C3 scenario: slot 0 already holds a sample with
axis value 0.2, so every frame of the scenario evaluates against stored
history, as the claim's guard requires. -/
def c3Hist : Hist :=
  ⟨fun j => if j = 0 then some (c3Gp (mkRat 1 5)) else none, fun _ => none⟩

/-- Concrete action map for the C3 scenario. -/
def c3Actions : List Action := [⟨"axis", [Binding.gamepadAxis 0]⟩]

/-- The C3 three-frame sequence: axis value 0.2, 0.2, 0.5. -/
def c3Frames : List (List (Option Gamepad)) :=
  [[some (c3Gp (mkRat 1 5))], [some (c3Gp (mkRat 1 5))], [some (c3Gp (mkRat 1 2))]]

/-- Concrete heap for the C4 witness: one live axis array and one live
button array. -/
def c4Heap : SMHeap :=
  ⟨1, fun _ => [mkRat 1 2], 1, fun _ => [GamepadButton.obj true 1]⟩

/-- Concrete spacemouse device for the C4 witness. -/
def c4Gp : RefGamepad := ⟨"3Dconnexion SpaceMouse Wireless", 0, 0⟩

/-- Concrete action map for the C8 counterexample: one action whose first
binding has an unknown tag and whose second binding would match every
frame of a plain gamepad.  If evaluation failed closed, the second binding
would dispatch. -/
def c8Actions : List Action := [⟨"a", [Binding.malformed, Binding.gamepad]⟩]

/-- Concrete valid, non-specialized gamepad for the C8 counterexample. -/
def c8Gp : Gamepad := ⟨"Xbox Wireless Controller", [0], [], 0⟩

/-- Concrete action map for the C9 witness. -/
def c9Actions : List Action := [⟨"a", [Binding.gamepad]⟩]

/-- Concrete slot list for the C9 witness: one valid connected device. -/
def c9Gps : List (Option Gamepad) :=
  [some ⟨"Xbox Wireless Controller", [0], [], 0⟩]

/-- Concrete gamepad for the C10 witness: full negative deflection. -/
def c10Gp : Gamepad := ⟨"pad", [mkRat (-1) 1], [], 0⟩

example : strIncludes "HTC SpaceMouse Pro" "SpaceMouse" = true := by decide
example : strIncludes "Xbox Wireless Controller" "SpaceMouse" = false := by decide
example : isPressed (GamepadButton.num (mkRat 1 2)) = true := by decide
example : isPressed (GamepadButton.num (mkRat 1 20)) = false := by decide
example :
    firesOf (frameCheckBinding ⟨"Xbox", [], [GamepadButton.obj true 1], 0⟩
      none 0 (Binding.gamepadBtn 0)) = true := by decide

/-- Shared helper: the gamepadBtn case of the frame check dispatches
exactly on a rising edge of the (possibly absent) button sample. -/
lemma firesOf_gamepadBtn (g : Gamepad) (prev : Option Gamepad) (i k : Nat) :
    firesOf (frameCheckBinding g prev i (Binding.gamepadBtn k))
      = (reportsPressed g k && !histPressed prev k) := by
  have hcond : frameCheckBinding g prev i (Binding.gamepadBtn k)
      = if (reportsPressed g k && !histPressed prev k) = true
        then Except.ok (some (true, Context.gamepadBtn g.id ⟨g, prev, i⟩))
        else Except.ok (some (false, emptyCtx)) := by
    cases prev <;> rfl
  rw [hcond]
  cases hc : (reportsPressed g k && !histPressed prev k) <;> simp [firesOf, hc]

/-- Shared helper: the gamepadAxis case of the frame check, when history
is stored, dispatches exactly when the raw axis reads differ, carrying the
current raw read in the context. -/
lemma frameCheckBinding_gamepadAxis (g pg : Gamepad) (i a : Nat) :
    frameCheckBinding g (some pg) i (Binding.gamepadAxis a)
      = if g.axes.get? a ≠ pg.axes.get? a then
          Except.ok (some (true, Context.gamepadAxis g.id ⟨g, some pg, i⟩ (g.axes.get? a)))
        else Except.ok (some (false, emptyCtx)) := rfl

/-- C5: a device whose id contains "SpaceMouse" never matches a `gamepad`
binding and always matches a `spacemouse` binding, and a device whose id
does not contain it does exactly the opposite — independent of the current
and previous sample values. -/
theorem specialized_device_exclusivity (g : Gamepad) (prev : Option Gamepad) (i : Nat) :
    firesOf (frameCheckBinding g prev i Binding.gamepad)
        = !strIncludes g.id "SpaceMouse"
    ∧ firesOf (frameCheckBinding g prev i Binding.spacemouse)
        = strIncludes g.id "SpaceMouse" := by
  by_cases h : strIncludes g.id "SpaceMouse" = true <;>
    simp_all [frameCheckBinding, firesOf]

/-- C6: `start` is a no-op when already running or unsupported, is
idempotent, and otherwise flips the running flag and makes exactly one
frame-callback registration — two consecutive starts register one
callback, not two. -/
theorem start_idempotent_guarded :
    (∀ s : PollState, s.isRunning = true → start s = s)
    ∧ (∀ s : PollState, s.isBrowserSupported = false → start s = s)
    ∧ (∀ s : PollState, start (start s) = start s)
    ∧ (∀ s : PollState, s.isBrowserSupported = true → s.isRunning = false →
        start s = { isRunning := true, isBrowserSupported := true,
                    rafRegistrations := s.rafRegistrations + 1 })
    ∧ (∀ s : PollState, s.isBrowserSupported = true →
        (start (start s)).rafRegistrations = s.rafRegistrations + 1 ∨
          (start (start s)).rafRegistrations = s.rafRegistrations) := by
  refine ⟨?_, ?_, ?_, ?_, ?_⟩ <;> intro s
  · intro h; simp [start, h]
  · intro h; simp [start, h]
  · rcases s with ⟨run, sup, n⟩; cases run <;> cases sup <;> simp [start, update]
  · intro h1 h2; simp [start, update, h1, h2]
  · intro h1
    rcases s with ⟨run, sup, n⟩
    cases run <;> simp_all [start, update]

/-- Witness for C6 at concrete states: an already-running supported state
is unchanged, and starting twice from a stopped supported state registers
exactly one frame callback. -/
theorem start_idempotent_guarded_witness :
    start (PollState.mk true true 5) = PollState.mk true true 5
    ∧ (start (start (PollState.mk false true 0))).rafRegistrations = 0 + 1 ∨
        (start (start (PollState.mk false true 0))).rafRegistrations = 0 :=
  Or.inl ⟨start_idempotent_guarded.1 _ rfl,
    (start_idempotent_guarded.2.2.2.2 _ rfl).resolve_right (by decide)⟩

/-- C4: the spacemouse context snapshots the device's axis and button
arrays into freshly allocated arrays; overwriting the live device's arrays
after the dispatch leaves the values read through the context equal to the
contents at dispatch time. -/
theorem spacemouse_snapshot_isolation (h : SMHeap) (g : RefGamepad)
    (newAx : List ℚ) (newBtn : List GamepadButton)
    (hax : g.axesRef < h.axSize) (hbtn : g.buttonsRef < h.btnSize) :
    (writeButtons (writeAxes (mkSpaceMouseCtxRef h g).1 g.axesRef newAx)
        g.buttonsRef newBtn).axMem (mkSpaceMouseCtxRef h g).2.axesRef
      = h.axMem g.axesRef
    ∧ (writeButtons (writeAxes (mkSpaceMouseCtxRef h g).1 g.axesRef newAx)
        g.buttonsRef newBtn).btnMem (mkSpaceMouseCtxRef h g).2.buttonsRef
      = h.btnMem g.buttonsRef := by
  constructor <;>
    simp [mkSpaceMouseCtxRef, writeAxes, writeButtons,
      Nat.ne_of_gt hax, Nat.ne_of_gt hbtn]

/-- Witness for C4: on a concrete one-array heap, mutating the live
device's arrays after the dispatch leaves the context's snapshot intact. -/
theorem spacemouse_snapshot_isolation_witness :
    (writeButtons (writeAxes (mkSpaceMouseCtxRef c4Heap c4Gp).1 c4Gp.axesRef [])
        c4Gp.buttonsRef []).axMem (mkSpaceMouseCtxRef c4Heap c4Gp).2.axesRef
      = c4Heap.axMem c4Gp.axesRef
    ∧ (writeButtons (writeAxes (mkSpaceMouseCtxRef c4Heap c4Gp).1 c4Gp.axesRef [])
        c4Gp.buttonsRef []).btnMem (mkSpaceMouseCtxRef c4Heap c4Gp).2.buttonsRef
      = c4Heap.btnMem c4Gp.buttonsRef :=
  spacemouse_snapshot_isolation c4Heap c4Gp [] [] (by decide) (by decide)

/-- Counterexample to C8 as stated: with an action whose first binding has
an unknown tag and whose second binding matches every frame of this plain
gamepad, the frame pass raises a TypeError and performs no dispatch at
all — evaluation does not fail closed and the action list is not processed
further. -/
theorem malformed_binding_not_fail_closed :
    (updateGamepad c8Actions hist0 [some c8Gp]).err = some JsErr.typeError
    ∧ (updateGamepad c8Actions hist0 [some c8Gp]).dispatches = [] := by
  constructor <;> rfl

/-- C1: a gamepadBtn binding fires exactly on rising edges — the check
dispatches if and only if the current sample reports the button pressed
and the previous sample (absent history counting as not pressed) did not;
and over the concrete unpressed/pressed/pressed three-frame sequence, the
binding fires exactly once, on the second frame. -/
theorem gamepadBtn_rising_edge_only :
    (∀ (g : Gamepad) (prev : Option Gamepad) (i k : Nat),
      firesOf (frameCheckBinding g prev i (Binding.gamepadBtn k))
        = (reportsPressed g k && !histPressed prev k))
    ∧ (runFrames c1Actions hist0 c1Frames).map (fun fr => fr.1.length) = [0, 1, 0] :=
  ⟨firesOf_gamepadBtn, by decide⟩

/-- C2 at the failing input (code bug): on the first frame a slot is seen,
a gamepadAxis binding makes the frame pass throw a TypeError (the source
reads `.axes` of the absent history entry without optional chaining), with
no dispatch and no history write — while a gamepadBtn binding on a first
frame is total and fires exactly when the button is currently pressed. -/
theorem gamepadAxis_first_frame_typeError :
    (updateGamepad c2Actions hist0 [some c2Gp]).err = some JsErr.typeError
    ∧ (updateGamepad c2Actions hist0 [some c2Gp]).dispatches = []
    ∧ (updateGamepad c2Actions hist0 [some c2Gp]).hist.lastGamepad 0 = none
    ∧ frameCheckBinding c2Gp none 0 (Binding.gamepadAxis 0)
        = Except.error JsErr.typeError
    ∧ (∀ (g : Gamepad) (i k : Nat),
        firesOf (frameCheckBinding g none i (Binding.gamepadBtn k)) = reportsPressed g k)
    ∧ (updateGamepad c2BtnActions hist0 [some c2GpBtn]).err = none
    ∧ (updateGamepad c2BtnActions hist0 [some c2GpBtn]).dispatches
        = [("btn", Context.gamepadBtn "Xbox Wireless Controller" ⟨c2GpBtn, none, 0⟩)] :=
  ⟨rfl, rfl, rfl, rfl,
   fun g i k => by rw [firesOf_gamepadBtn g none i k]; simp [histPressed],
   by decide, by decide⟩

/-- C3: with stored history, a gamepadAxis binding dispatches exactly when
the raw current axis read differs from the previous-frame read, the
dispatched context carrying the new raw value; over the concrete
0.2 / 0.2 / 0.5 three-frame sequence it fires on the third frame only,
with context value 0.5. -/
theorem gamepadAxis_change_dispatch :
    (∀ (g pg : Gamepad) (i a : Nat),
      firesOf (frameCheckBinding g (some pg) i (Binding.gamepadAxis a))
        = !(g.axes.get? a == pg.axes.get? a))
    ∧ (∀ (g pg : Gamepad) (i a : Nat),
        frameCheckBinding g (some pg) i (Binding.gamepadAxis a)
          = if g.axes.get? a ≠ pg.axes.get? a then
              Except.ok (some (true,
                Context.gamepadAxis g.id ⟨g, some pg, i⟩ (g.axes.get? a)))
            else Except.ok (some (false, emptyCtx)))
    ∧ runFrames c3Actions c3Hist c3Frames
        = [([], none), ([], none),
           ([("axis", Context.gamepadAxis "Xbox Wireless Controller"
               ⟨c3Gp (mkRat 1 2), some (c3Gp (mkRat 1 5)), 0⟩ (some (mkRat 1 2)))],
            none)] := by
  refine ⟨?_, fun g pg i a => frameCheckBinding_gamepadAxis g pg i a, by decide⟩
  intro g pg i a
  rw [frameCheckBinding_gamepadAxis]
  cases hEq : (g.axes.get? a == pg.axes.get? a) with
  | true =>
      rw [if_neg (fun hne => hne (eq_of_beq hEq))]
      simp [firesOf]
  | false =>
      rw [if_pos (ne_of_beq_false hEq)]
      simp [firesOf]

/-- C10: mapGamepadToJoy zeroes every axis value strictly below 0.09 —
which covers every negative value — and keeps every value at or above
0.09 unchanged; a full negative deflection of -1.0 is reported as 0.0. -/
theorem mapGamepadToJoy_deadzone :
    (∀ (seq seconds : ℤ) (g : Gamepad) (i : Nat) (x : ℚ),
      g.axes.get? i = some x →
        (mapGamepadToJoy seq seconds g).axes.get? i
          = some (if x < mkRat 9 100 then 0 else x))
    ∧ (∀ (seq seconds : ℤ) (g : Gamepad) (i : Nat) (x : ℚ),
        g.axes.get? i = some x → x < 0 →
          (mapGamepadToJoy seq seconds g).axes.get? i = some 0)
    ∧ (mapGamepadToJoy 0 0 c10Gp).axes = [0] := by
  have key : ∀ (seq seconds : ℤ) (g : Gamepad) (i : Nat) (x : ℚ),
      g.axes.get? i = some x →
        (mapGamepadToJoy seq seconds g).axes.get? i
          = some (if x < mkRat 9 100 then 0 else x) := by
    intro seq seconds g i x hx
    rw [List.get?_eq_getElem?] at hx ⊢
    simp [mapGamepadToJoy, List.getElem?_map, hx]
  refine ⟨key, ?_, by decide⟩
  intro seq seconds g i x hx hneg
  rw [key seq seconds g i x hx, if_pos (lt_trans hneg (by decide))]

/-- Witness for C10 at a concrete input: the -1.0 axis of the concrete
gamepad is reported as 0. -/
theorem mapGamepadToJoy_deadzone_witness :
    (mapGamepadToJoy 1 2 c10Gp).axes.get? 0 = some 0 :=
  mapGamepadToJoy_deadzone.2.1 1 2 c10Gp 0 (mkRat (-1) 1) (by decide) (by decide)

/-- C8 amended: a binding with an unknown tag itself produces no match and
no dispatch, but during a frame pass the switch returns no decision
(JavaScript `undefined`) and the caller's destructuring throws a
TypeError, aborting the remaining bindings; the keyboard event handlers,
by contrast, do fail closed on an unknown tag. -/
theorem malformed_binding_amended :
    (∀ g prev i, frameCheckBinding g prev i Binding.malformed = Except.ok none)
    ∧ (∀ g prev i name rest,
        checkBindingsList (frameCheckBinding g prev i) name (Binding.malformed :: rest)
          = ([], some JsErr.typeError))
    ∧ (∀ code, keyDownCheckBinding code Binding.malformed
        = Except.ok (some (false, emptyCtx)))
    ∧ (∀ code, keyUpCheckBinding code Binding.malformed
        = Except.ok (some (false, emptyCtx))) :=
  ⟨fun _ _ _ => rfl, fun _ _ _ _ _ => rfl, fun _ => rfl, fun _ => rfl⟩

/-- Shared helper: the key-down handler's inner loop dispatches exactly
the matching keyboard bindings, in order, and never throws. -/
lemma checkBindingsList_keyDown (code name : String) (bs : List Binding) :
    checkBindingsList (keyDownCheckBinding code) name bs
      = ((bs.filter (fun b => kbMatches b code true)).map
          (fun _ => (name, keyboardCtx)), none) := by
  induction bs with
  | nil => rfl
  | cons b rest ih =>
      cases b with
      | keyboard c k =>
          by_cases h : (k && (c == code)) = true <;>
            simp [checkBindingsList, keyDownCheckBinding, kbMatches, h, ih]
      | gamepad => simp [checkBindingsList, keyDownCheckBinding, kbMatches, ih]
      | gamepadAxis a => simp [checkBindingsList, keyDownCheckBinding, kbMatches, ih]
      | gamepadBtn k => simp [checkBindingsList, keyDownCheckBinding, kbMatches, ih]
      | spacemouse => simp [checkBindingsList, keyDownCheckBinding, kbMatches, ih]
      | malformed => simp [checkBindingsList, keyDownCheckBinding, kbMatches, ih]

/-- Shared helper: the key-up handler's inner loop dispatches exactly the
matching keyboard bindings, in order, and never throws. -/
lemma checkBindingsList_keyUp (code name : String) (bs : List Binding) :
    checkBindingsList (keyUpCheckBinding code) name bs
      = ((bs.filter (fun b => kbMatches b code false)).map
          (fun _ => (name, keyboardCtx)), none) := by
  induction bs with
  | nil => rfl
  | cons b rest ih =>
      cases b with
      | keyboard c k =>
          by_cases h : (!k && (c == code)) = true <;>
            simp [checkBindingsList, keyUpCheckBinding, kbMatches, h, ih]
      | gamepad => simp [checkBindingsList, keyUpCheckBinding, kbMatches, ih]
      | gamepadAxis a => simp [checkBindingsList, keyUpCheckBinding, kbMatches, ih]
      | gamepadBtn k => simp [checkBindingsList, keyUpCheckBinding, kbMatches, ih]
      | spacemouse => simp [checkBindingsList, keyUpCheckBinding, kbMatches, ih]
      | malformed => simp [checkBindingsList, keyUpCheckBinding, kbMatches, ih]

/-- Shared helper: every pair dispatched for a key event carries the
single keyboard context. -/
lemma kbDispatches_ctx (actions : List Action) (code : String) (down : Bool) :
    (kbDispatches actions code down).all (fun p => p.2 == keyboardCtx) = true := by
  induction actions with
  | nil => rfl
  | cons a rest ih => simp_all [kbDispatches, List.all_append]

/-- C7: a key-down event dispatches exactly the actions holding a keyboard
binding with the onKeyDown flag set and the event's code, a key-up event
exactly those with the flag unset and the event's code, every keyboard
dispatch carries the single keyboard context, and keyboard bindings never
match during frame sampling. -/
theorem keyboard_edge_routing :
    (∀ (actions : List Action) (code : String),
      onKeyDown actions code = (kbDispatches actions code true, none))
    ∧ (∀ (actions : List Action) (code : String),
      onKeyUp actions code = (kbDispatches actions code false, none))
    ∧ (∀ (actions : List Action) (code : String) (down : Bool),
      (kbDispatches actions code down).all (fun p => p.2 == keyboardCtx) = true)
    ∧ (∀ (g : Gamepad) (prev : Option Gamepad) (i : Nat) (c : String) (k : Bool),
      frameCheckBinding g prev i (Binding.keyboard c k)
        = Except.ok (some (false, emptyCtx))) := by
  refine ⟨?_, ?_, kbDispatches_ctx, fun _ _ _ _ _ => rfl⟩
  · intro actions code
    induction actions with
    | nil => rfl
    | cons a rest ih =>
        have ih' : checkActionsBindings (keyDownCheckBinding code) rest
            = (kbDispatches rest code true, none) := ih
        simp [onKeyDown, checkActionsBindings, checkBindingsList_keyDown,
          ih', kbDispatches]
  · intro actions code
    induction actions with
    | nil => rfl
    | cons a rest ih =>
        have ih' : checkActionsBindings (keyUpCheckBinding code) rest
            = (kbDispatches rest code false, none) := ih
        simp [onKeyUp, checkActionsBindings, checkBindingsList_keyUp,
          ih', kbDispatches]

/-- Shared helper: from a slot validity certificate, the index is within
the sampled slot list. -/
lemma validSlotB_lt (gamepads : List (Option Gamepad)) (i : Nat)
    (h : validSlotB gamepads i = true) : i < gamepads.length := by
  by_cases hlen : i < gamepads.length
  · exact hlen
  · exfalso
    have hn : gamepads.get? i = none := List.get?_eq_none.mpr (Nat.le_of_not_lt hlen)
    rw [List.get?_eq_getElem?] at hn
    simp [validSlotB, hn, Option.join] at h

/-- Shared helper: the slot loop only records as processed the indices of
slots holding a valid connected device (beyond whatever the accumulator
already recorded). -/
lemma updateGamepadLoop_processed (actions : List Action)
    (gamepads : List (Option Gamepad)) (idxs : List Nat) :
    ∀ (acc : FrameResult) (i : Nat),
      i ∈ (updateGamepadLoop actions gamepads idxs acc).processed →
        i ∈ acc.processed ∨ validSlotB gamepads i = true := by
  induction idxs with
  | nil => intro acc i h; exact Or.inl h
  | cons j rest ih =>
      intro acc i h
      simp only [updateGamepadLoop] at h
      split at h
      · exact Or.inl h
      · split at h
        · exact ih acc i h
        · rename_i g hg
          have hvalid1 : ∀ hinv : ¬ isInvalidGamepad g = true,
              validSlotB gamepads j = true := by
            intro hinv
            unfold validSlotB
            rw [hg]
            simp [hinv]
          split at h
          · exact ih acc i h
          · rename_i hinv
            split at h
            · simp only [List.mem_append, List.mem_singleton] at h
              rcases h with hin | rfl
              · exact Or.inl hin
              · exact Or.inr (hvalid1 hinv)
            · rcases ih _ i h with hin | hval
              · simp only [List.mem_append, List.mem_singleton] at hin
                rcases hin with hin | rfl
                · exact Or.inl hin
                · exact Or.inr (hvalid1 hinv)
              · exact Or.inr hval

/-- Shared helper: the slot loop only writes gamepad history at indices of
slots holding a valid connected device. -/
lemma updateGamepadLoop_hist (actions : List Action)
    (gamepads : List (Option Gamepad)) (idxs : List Nat) :
    ∀ (acc : FrameResult) (q : Nat),
      (updateGamepadLoop actions gamepads idxs acc).hist.lastGamepad q
          ≠ acc.hist.lastGamepad q →
        validSlotB gamepads q = true := by
  induction idxs with
  | nil => intro acc q h; exact absurd rfl h
  | cons j rest ih =>
      intro acc q h
      simp only [updateGamepadLoop] at h
      split at h
      · exact absurd rfl h
      · split at h
        · exact ih acc q h
        · rename_i g hg
          have hvalid1 : ∀ hinv : ¬ isInvalidGamepad g = true,
              validSlotB gamepads j = true := by
            intro hinv
            unfold validSlotB
            rw [hg]
            simp [hinv]
          split at h
          · exact ih acc q h
          · rename_i hinv
            split at h
            · exact absurd rfl h
            · by_cases hqj : q = j
              · exact hqj ▸ hvalid1 hinv
              · refine ih ⟨⟨fun j1 => if j1 = j then some g else acc.hist.lastGamepad j1,
                    fun j1 => if j1 = j then some g.timestamp else acc.hist.lastTimestamp j1⟩,
                    acc.dispatches ++ (checkActionsBindings
                      (frameCheckBinding g (acc.hist.lastGamepad j) j) actions).1,
                    acc.processed ++ [j], none⟩ q ?_
                intro heq
                exact h (heq.trans (if_neg hqj))

/-- C9: the slot loop iterates one index past the end of the sampled slot
list, but the out-of-range index holds no device and is skipped by the
empty/invalid guard: bindings are evaluated, and history is written, only
for in-range indices holding a valid connected device. -/
theorem slot_loop_bounds (actions : List Action) (hist : Hist)
    (gamepads : List (Option Gamepad)) :
    gamepads.get? gamepads.length = none
    ∧ (∀ i, i ∈ (updateGamepad actions hist gamepads).processed →
        i < gamepads.length ∧ validSlotB gamepads i = true)
    ∧ (∀ i, (updateGamepad actions hist gamepads).hist.lastGamepad i
          ≠ hist.lastGamepad i →
        i < gamepads.length ∧ validSlotB gamepads i = true) := by
  refine ⟨List.get?_eq_none.mpr le_rfl, ?_, ?_⟩
  · intro i hmem
    rcases updateGamepadLoop_processed actions gamepads
        (List.range (gamepads.length + 1)) _ i hmem with hin | hval
    · exact absurd hin (List.not_mem_nil i)
    · exact ⟨validSlotB_lt _ _ hval, hval⟩
  · intro i hne
    have hval := updateGamepadLoop_hist actions gamepads
        (List.range (gamepads.length + 1)) _ i hne
    exact ⟨validSlotB_lt _ _ hval, hval⟩

/-- Witness for C9 at a concrete input: the single valid slot of the
concrete slot list is processed, is in range and is valid. -/
theorem slot_loop_bounds_witness :
    0 ∈ (updateGamepad c9Actions hist0 c9Gps).processed
    ∧ (0 < c9Gps.length ∧ validSlotB c9Gps 0 = true) :=
  ⟨by decide, (slot_loop_bounds c9Actions hist0 c9Gps).2.1 0 (by decide)⟩

end Capra
